import Mathlib

/-!
Verification of the presence, matching and realtime-messaging core of the
soul-link-connect repository against its specification.

The development shallowly embeds the relevant source functions:

* `src/src/utils/geolocation.ts` — `calculateDistance`, `isWithinRange`,
  `sortHelpersByDistance` (real-valued model of JS numbers; `Math.atan2` is
  embedded as `atan2`; the JS engine's stable `Array.prototype.sort` is
  modelled by Mathlib's stable `List.insertionSort`).
* `src/src/components/HelperDashboard.tsx` — `toggleAvailability`,
  `handleAcceptRequest`, `handleDeclineRequest`.
* `src/src/components/SeekerDashboard.tsx` (Supabase variant) —
  `handleRequestSupport`, `handleDirectChat`.
* `src/unnamed/part_006` (ChatWindow) — `fetchMessages`, `sendMessage`.
* `src/supabase/migrations/20250611123245-….sql` — table shapes and the
  row-level-security (RLS) rules, folded into the operations as row filters:
  a Supabase `update` whose filter (including RLS) matches zero rows reports
  no error, so the handlers' `if (error) throw` never fires in that case.

Database state is a record of row lists; `gen_random_uuid()` ids become a
`nextId` counter and SQL `NOW()` / client `new Date()` a `now` field that the
operations read.  Transport failures are passed in as explicit `Bool`
outcomes where a claim is about them.
-/

/-! ### Geolocation utilities (src/src/utils/geolocation.ts) -/

/-- A latitude/longitude pair (`Location` in geolocation.ts); JS numbers are
idealised as real numbers. -/
structure Location where
  latitude : ℝ
  longitude : ℝ

/-- `Math.atan2 y x`: the angle of the point `(x, y)`, in `(-π, π]`, with
`atan2 0 0 = 0` as in JS. -/
noncomputable def atan2 (y x : ℝ) : ℝ :=
  if 0 < x then Real.arctan (y / x)
  else if x < 0 then
    (if 0 ≤ y then Real.arctan (y / x) + Real.pi else Real.arctan (y / x) - Real.pi)
  else (if 0 < y then Real.pi / 2 else if y < 0 then -(Real.pi / 2) else 0)

/-- `calculateDistance` of geolocation.ts: the haversine distance between two
points with Earth radius `R = 6371` km, computed exactly as the source writes
it, including the `atan2 (sqrt a) (sqrt (1 - a))` step. -/
noncomputable def calculateDistance (loc1 loc2 : Location) : ℝ :=
  let R : ℝ := 6371
  let dLat := (loc2.latitude - loc1.latitude) * (Real.pi / 180)
  let dLon := (loc2.longitude - loc1.longitude) * (Real.pi / 180)
  let a :=
    Real.sin (dLat / 2) * Real.sin (dLat / 2) +
      Real.cos (loc1.latitude * (Real.pi / 180)) *
      Real.cos (loc2.latitude * (Real.pi / 180)) *
      Real.sin (dLon / 2) * Real.sin (dLon / 2)
  let c := 2 * atan2 (Real.sqrt a) (Real.sqrt (1 - a))
  R * c

/-- `isWithinRange` of geolocation.ts (default radius 50 km at this copy). -/
noncomputable def isWithinRange (loc1 loc2 : Location) (maxDistance : ℝ) : Prop :=
  calculateDistance loc1 loc2 ≤ maxDistance

/-- Unfolded form of `calculateDistance` (the `let` bindings zeta-reduced). -/
theorem calculateDistance_def (loc1 loc2 : Location) :
    calculateDistance loc1 loc2 =
      6371 * (2 * atan2
        (Real.sqrt
          (Real.sin ((loc2.latitude - loc1.latitude) * (Real.pi / 180) / 2) *
            Real.sin ((loc2.latitude - loc1.latitude) * (Real.pi / 180) / 2) +
          Real.cos (loc1.latitude * (Real.pi / 180)) *
            Real.cos (loc2.latitude * (Real.pi / 180)) *
            Real.sin ((loc2.longitude - loc1.longitude) * (Real.pi / 180) / 2) *
            Real.sin ((loc2.longitude - loc1.longitude) * (Real.pi / 180) / 2)))
        (Real.sqrt
          (1 - (Real.sin ((loc2.latitude - loc1.latitude) * (Real.pi / 180) / 2) *
            Real.sin ((loc2.latitude - loc1.latitude) * (Real.pi / 180) / 2) +
          Real.cos (loc1.latitude * (Real.pi / 180)) *
            Real.cos (loc2.latitude * (Real.pi / 180)) *
            Real.sin ((loc2.longitude - loc1.longitude) * (Real.pi / 180) / 2) *
            Real.sin ((loc2.longitude - loc1.longitude) * (Real.pi / 180) / 2))))) := rfl

/-- C7: `calculateDistance` is symmetric in its two locations, and the
distance from a location to itself is exactly `0` (in the real-valued model
of JS floats).  The embedded definition is the haversine formula with Earth
radius 6371 km, as the spec states. -/
theorem C7_distance_symm_and_self_zero :
    (∀ a b : Location, calculateDistance a b = calculateDistance b a) ∧
    (∀ a : Location, calculateDistance a a = 0) := by
  constructor
  · intro a b
    rw [calculateDistance_def, calculateDistance_def]
    have hlat : Real.sin ((b.latitude - a.latitude) * (Real.pi / 180) / 2) *
        Real.sin ((b.latitude - a.latitude) * (Real.pi / 180) / 2) =
        Real.sin ((a.latitude - b.latitude) * (Real.pi / 180) / 2) *
        Real.sin ((a.latitude - b.latitude) * (Real.pi / 180) / 2) := by
      rw [show (b.latitude - a.latitude) * (Real.pi / 180) / 2 =
          -((a.latitude - b.latitude) * (Real.pi / 180) / 2) by ring, Real.sin_neg]
      ring
    have hlon : Real.sin ((b.longitude - a.longitude) * (Real.pi / 180) / 2) *
        Real.sin ((b.longitude - a.longitude) * (Real.pi / 180) / 2) =
        Real.sin ((a.longitude - b.longitude) * (Real.pi / 180) / 2) *
        Real.sin ((a.longitude - b.longitude) * (Real.pi / 180) / 2) := by
      rw [show (b.longitude - a.longitude) * (Real.pi / 180) / 2 =
          -((a.longitude - b.longitude) * (Real.pi / 180) / 2) by ring, Real.sin_neg]
      ring
    rw [show Real.cos (a.latitude * (Real.pi / 180)) * Real.cos (b.latitude * (Real.pi / 180)) =
        Real.cos (b.latitude * (Real.pi / 180)) * Real.cos (a.latitude * (Real.pi / 180)) from
      mul_comm _ _]
    rw [hlat]
    rw [show ∀ x y : ℝ, x * y *
        Real.sin ((b.longitude - a.longitude) * (Real.pi / 180) / 2) *
        Real.sin ((b.longitude - a.longitude) * (Real.pi / 180) / 2) = x * y *
        (Real.sin ((b.longitude - a.longitude) * (Real.pi / 180) / 2) *
        Real.sin ((b.longitude - a.longitude) * (Real.pi / 180) / 2)) from
      fun x y => by ring]
    rw [hlon]
    ring_nf
  · intro a
    rw [calculateDistance_def]
    simp only [sub_self, zero_mul, zero_div, Real.sin_zero, mul_zero, zero_add, add_zero,
      Real.sqrt_zero, sub_zero, Real.sqrt_one]
    rw [atan2, if_pos one_pos]
    simp [Real.arctan_zero]

/-! ### Helper ranking (sortHelpersByDistance of geolocation.ts) -/

/-- A candidate passed to `sortHelpersByDistance`: the fields the function
reads.  `location` is `none` when the JS object has no `location` field (so
`typeof helper.location === 'object'` is false). -/
structure HelperC where
  id : String
  location : Option Location

/-- A candidate as returned by `sortHelpersByDistance`'s `.map` step:
`{ ...helper, distance }`, where `distance: null` is `none`. -/
structure RankedHelper where
  helper : HelperC
  distance : Option ℝ

/-- `Math.round(distance * 10) / 10` of the source: JS `Math.round` is
`⌊x + 1/2⌋`, which is Mathlib's `round`. -/
noncomputable def roundTenth (x : ℝ) : ℝ := ((round (x * 10) : ℤ) : ℝ) / 10

/-- The `.map` step of `sortHelpersByDistance`: a helper gets a (rounded)
distance only when `typeof helper.location === 'object' && helper.location.latitude`
holds — for a present location object that is a truthiness test on `latitude`,
i.e. `latitude ≠ 0` in the real-valued model.  Otherwise `distance` is null. -/
noncomputable def annotateHelper (userLocation : Location) (h : HelperC) : RankedHelper :=
  match h.location with
  | some l =>
    if l.latitude ≠ 0 then ⟨h, some (roundTenth (calculateDistance userLocation l))⟩
    else ⟨h, none⟩
  | none => ⟨h, none⟩

/-- The comparator of `sortHelpersByDistance`'s `.sort` call, as a number:
null distances sort after non-null ones, two null distances tie, and two
distances compare by `a.distance - b.distance`. -/
noncomputable def compareDist : Option ℝ → Option ℝ → ℝ
  | none, none => 0
  | none, some _ => 1
  | some _, none => -1
  | some a, some b => a - b

/-- The order induced by the comparator: `a` may come before `b` exactly when
the comparator is non-positive.  A JS stable sort with this comparator yields
the unique stable ordering of this total preorder. -/
def rankedLe (a b : RankedHelper) : Prop := compareDist a.distance b.distance ≤ 0

noncomputable instance : DecidableRel rankedLe := fun a b =>
  inferInstanceAs (Decidable (compareDist a.distance b.distance ≤ 0))

instance : IsTotal RankedHelper rankedLe where
  total a b := by
    unfold rankedLe
    cases ha : a.distance with
    | none =>
      cases hb : b.distance with
      | none => left; simp [compareDist]
      | some y => right; simp [compareDist]
    | some x =>
      cases hb : b.distance with
      | none => left; simp [compareDist]
      | some y =>
        rcases le_total x y with h | h
        · left; simp [compareDist]; linarith
        · right; simp [compareDist]; linarith

instance : IsTrans RankedHelper rankedLe where
  trans a b c hab hbc := by
    unfold rankedLe at *
    cases ha : a.distance <;> cases hb : b.distance <;> cases hc : c.distance <;>
      rw [ha, hb] at hab <;> rw [hb, hc] at hbc <;>
      simp [compareDist] at * <;> linarith

/-- `sortHelpersByDistance` of geolocation.ts.  With no caller location the
source returns the input list unchanged (no `.map`, no distance field); the
uniform return type here annotates that branch with `distance := none`
without touching order or helpers.  With a location, the source maps each
helper to an annotated record and sorts with the comparator via the engine's
stable `Array.prototype.sort`, modelled by the stable `List.insertionSort`. -/
noncomputable def sortHelpersByDistance (helpers : List HelperC)
    (userLocation : Option Location) : List RankedHelper :=
  match userLocation with
  | none => helpers.map fun h => ⟨h, none⟩
  | some loc => List.insertionSort rankedLe (helpers.map (annotateHelper loc))

/-- Sortedness of the output, read back through the comparator: between any
earlier and later output entry, a null distance later never precedes a
non-null one, and non-null distances are non-decreasing. -/
theorem sorted_rankedLe_pairwise (l : List RankedHelper) :
    (List.insertionSort rankedLe l).Pairwise fun a b =>
      (a.distance = none → b.distance = none) ∧
      (∀ x y : ℝ, a.distance = some x → b.distance = some y → x ≤ y) := by
  have hs := List.sorted_insertionSort rankedLe l
  refine List.Pairwise.imp ?_ hs
  intro a b hab
  unfold rankedLe at hab
  constructor
  · intro ha
    cases hb : b.distance with
    | none => rfl
    | some y =>
      rw [ha, hb] at hab
      norm_num [compareDist] at hab
  · intro x y hx hy
    rw [hx, hy] at hab
    simp [compareDist] at hab
    linarith

/-- A candidate whose location object is present but has latitude `0` (on the
equator), used to exercise the truthiness test of `sortHelpersByDistance`. -/
def cHelperA : HelperC := ⟨"A1", some ⟨0, 10⟩⟩

/-- A candidate with no location field. -/
def cHelperB : HelperC := ⟨"B1", none⟩

/-- A caller location for the ranking examples. -/
def cLoc : Location := ⟨19, 72⟩

/-- C8 counterexample: with caller location present, the input
`[cHelperB, cHelperA]` — an unlocated helper followed by a helper whose
location is present with latitude 0 — is returned unchanged (both get a null
distance, the comparator ties, and the stable sort keeps the input order).
So the helper with a present location is NOT placed before the helper without
one: the output violates the claimed pairwise ordering at this input. -/
theorem C8_counterexample_zero_latitude_order :
    cHelperB.location = none ∧ cHelperA.location.isSome = true ∧
    sortHelpersByDistance [cHelperB, cHelperA] (some cLoc)
        = [⟨cHelperB, none⟩, ⟨cHelperA, none⟩] ∧
    ¬ ((sortHelpersByDistance [cHelperB, cHelperA] (some cLoc)).Pairwise fun a b =>
        b.helper.location.isSome = true → a.helper.location.isSome = true) := by
  have hA : annotateHelper cLoc cHelperA = ⟨cHelperA, none⟩ := by
    simp [annotateHelper, cHelperA]
  have hB : annotateHelper cLoc cHelperB = ⟨cHelperB, none⟩ := by
    simp [annotateHelper, cHelperB]
  have hsorted : sortHelpersByDistance [cHelperB, cHelperA] (some cLoc)
      = [⟨cHelperB, none⟩, ⟨cHelperA, none⟩] := by
    simp [sortHelpersByDistance, hA, hB, List.insertionSort, List.orderedInsert,
      rankedLe, compareDist]
  refine ⟨rfl, rfl, hsorted, ?_⟩
  rw [hsorted]
  intro hp
  rcases List.pairwise_cons.mp hp with ⟨h1, _⟩
  have hcontra := h1 ⟨cHelperA, none⟩ (List.mem_singleton.mpr rfl)
  simp [cHelperA, cHelperB] at hcontra

/-- C8 (amended): with a caller location present, the output of
`sortHelpersByDistance` is a permutation of the annotated input in which
every helper assigned a null distance (no location object, or latitude 0)
comes after every helper assigned a distance, and assigned (rounded)
distances are non-decreasing; a helper with a present location of nonzero
latitude is assigned the rounded haversine distance to the caller; with the
caller location absent the candidates keep their original input order. -/
theorem C8_amended_ranking (loc : Location) (helpers : List HelperC) :
    ((sortHelpersByDistance helpers (some loc)).Pairwise fun a b =>
        (a.distance = none → b.distance = none) ∧
        (∀ x y : ℝ, a.distance = some x → b.distance = some y → x ≤ y)) ∧
    List.Perm (sortHelpersByDistance helpers (some loc)) (helpers.map (annotateHelper loc)) ∧
    (sortHelpersByDistance helpers none).map (fun r => r.helper) = helpers ∧
    ∀ h ∈ helpers, ∀ l, h.location = some l → l.latitude ≠ 0 →
      annotateHelper loc h = ⟨h, some (roundTenth (calculateDistance loc l))⟩ := by
  refine ⟨?_, ?_, ?_, ?_⟩
  · exact sorted_rankedLe_pairwise (helpers.map (annotateHelper loc))
  · exact List.perm_insertionSort rankedLe (helpers.map (annotateHelper loc))
  · simp only [sortHelpersByDistance, List.map_map, Function.comp_def]
    exact List.map_id helpers
  · intro h _ l hl hlat
    simp [annotateHelper, hl, hlat]

/-- C10: a candidate whose location object is present with latitude `0` is
treated as having no location: the `.map` step assigns it a null distance
(because `helper.location.latitude` is a truthiness test, false at `0`), and
in the sorted output every null-distance entry comes after all entries that
were assigned a distance (all helpers with a present, nonzero latitude). -/
theorem C10_zero_latitude_null_distance (loc : Location) (h : HelperC) (l : Location)
    (hl : h.location = some l) (h0 : l.latitude = 0) (helpers : List HelperC) :
    annotateHelper loc h = ⟨h, none⟩ ∧
    ((sortHelpersByDistance helpers (some loc)).Pairwise fun a b =>
        a.distance = none → b.distance = none) := by
  constructor
  · simp [annotateHelper, hl, h0]
  · have hp := sorted_rankedLe_pairwise (helpers.map (annotateHelper loc))
    exact List.Pairwise.imp (fun hab => hab.1) hp

/-- Witness for C10 at a concrete input: the helper at latitude 0 from the
examples above, ranked among `[cHelperB, cHelperA]`. -/
theorem C10_zero_latitude_null_distance_witness :
    annotateHelper cLoc cHelperA = ⟨cHelperA, none⟩ ∧
    ((sortHelpersByDistance [cHelperB, cHelperA] (some cLoc)).Pairwise fun a b =>
        a.distance = none → b.distance = none) :=
  C10_zero_latitude_null_distance cLoc cHelperA ⟨0, 10⟩ rfl rfl [cHelperB, cHelperA]

/-- JS `String.prototype.trim`: drop whitespace from both ends.  Structural
recursion over the character list (Lean's own `String.trim` is not
kernel-reducible), so concrete inputs evaluate. -/
def jsTrim (s : String) : String :=
  ⟨((s.data.dropWhile Char.isWhitespace).reverse.dropWhile Char.isWhitespace).reverse⟩

/-! ### Data model (supabase migration tables, ids and clock made explicit) -/

/-- The `status` column of `support_requests` (CHECK constraint of the
migration). -/
inductive ReqStatus
  | pending
  | accepted
  | declined
  | completed
deriving DecidableEq

/-- A row of `profiles` (the columns the modelled handlers read). -/
structure ProfileRow where
  id : String
  name : String
  role : String
  isAvailable : Bool
deriving DecidableEq

/-- A row of `chats`. -/
structure ChatRow where
  id : Nat
  participants : List String
  participantNames : List String
  lastMessage : String
  lastMessageTime : Nat
deriving DecidableEq

/-- A row of `messages`. -/
structure MessageRow where
  id : Nat
  chatId : Nat
  text : String
  senderId : String
  senderName : String
  createdAt : Nat
deriving DecidableEq

/-- A row of `support_requests`. -/
structure RequestRow where
  id : Nat
  seekerId : String
  helperId : String
  seekerName : String
  message : String
  status : ReqStatus
  createdAt : Nat
deriving DecidableEq

/-- The store's state: the four collections plus a fresh-id counter (for
`gen_random_uuid()` defaults) and the current time (for `NOW()` defaults and
`new Date().toISOString()`). -/
structure DB where
  profiles : List ProfileRow
  chats : List ChatRow
  messages : List MessageRow
  requests : List RequestRow
  nextId : Nat
  now : Nat
deriving DecidableEq

/-! ### Chat lookup and get-or-create
(`handleAcceptRequest` in HelperDashboard.tsx lines 139-167 and
`handleDirectChat` in SeekerDashboard.tsx lines 355-406 share this
read-then-write pattern: a `select` filtered by `.contains('participants', …)`
twice, then an `insert` when nothing was found). -/

/-- The double `.contains('participants', [u])` filter of the chat lookup. -/
def chatMatches (u1 u2 : String) (c : ChatRow) : Bool :=
  c.participants.contains u1 && c.participants.contains u2

/-- The read phase: the awaited `select` of existing chats for the pair. -/
def findChats (db : DB) (u1 u2 : String) : List ChatRow :=
  db.chats.filter (chatMatches u1 u2)

/-- The write phase, applied to the read result: reuse the first found chat,
else insert a new one for the pair.  Returned with the chosen chat id.  The
handlers suspend between `findChats` and `chatWrite` (the `await` of the
select), so two concurrent calls can both run their read before either
write. -/
def chatWrite (db : DB) (found : List ChatRow) (u1 u2 n1 n2 lastMsg : String) : DB × Nat :=
  match found with
  | c :: _ => (db, c.id)
  | [] =>
    ({ db with
        chats := db.chats ++ [⟨db.nextId, [u1, u2], [n1, n2], lastMsg, db.now⟩],
        nextId := db.nextId + 1 },
      db.nextId)

/-- A toast shown to the caller. -/
inductive Notice
  | ok (msg : String)
  | err (msg : String)
deriving DecidableEq

/-! ### Support-request handlers (HelperDashboard.tsx, SeekerDashboard.tsx) -/

/-- A Supabase `update … .eq('id', rid)` on `support_requests`: RLS policy
"Helpers can update support requests" restricts the write to rows with
`helper_id = auth.uid()`, silently (an update matching zero rows reports no
error).  No condition on the current status exists anywhere. -/
def updateRequestStatus (db : DB) (callerId : String) (rid : Nat) (st : ReqStatus) : DB :=
  { db with
      requests := db.requests.map fun r =>
        if r.id = rid ∧ r.helperId = callerId then { r with status := st } else r }

/-- `handleAcceptRequest` of HelperDashboard.tsx: set the request's status to
accepted (unguarded, RLS-filtered), then get-or-create the chat for
`{caller, request.seeker_id}` and report success.  The handler never checks
that the caller is the named helper, that the request exists, or that it is
pending; `if (requestError) throw` does not fire on a zero-row update. -/
def handleAcceptRequest (caller : ProfileRow) (request : RequestRow) (db : DB) :
    DB × Nat × Notice :=
  let db1 := updateRequestStatus db caller.id request.id ReqStatus.accepted
  let res := chatWrite db1 (findChats db1 caller.id request.seekerId) caller.id
    request.seekerId caller.name request.seekerName
    (caller.name ++ " accepted your support request")
  (res.1, res.2, Notice.ok "Request accepted! Chat started.")

/-- `handleDeclineRequest` of HelperDashboard.tsx: set status to declined,
unguarded by the current status, RLS-filtered to the named helper's rows. -/
def handleDeclineRequest (caller : ProfileRow) (requestId : Nat) (db : DB) : DB × Notice :=
  (updateRequestStatus db caller.id requestId ReqStatus.declined,
    Notice.ok "Request declined")

/-- `handleDirectChat` of SeekerDashboard.tsx: the same read-then-write
get-or-create of a chat for `{userProfile, helper}`. -/
def handleDirectChat (userProfile helper : ProfileRow) (db : DB) : DB × Nat × Notice :=
  let res := chatWrite db (findChats db userProfile.id helper.id) userProfile.id
    helper.id userProfile.name helper.name
    (userProfile.name ++ " started a conversation")
  (res.1, res.2, Notice.ok ("Chat started with " ++ helper.name))

/-- `handleRequestSupport` of SeekerDashboard.tsx: guard
`!userProfile || !jsTrim supportMessage() || !selectedHelper` shows the
validation toast and returns; otherwise one `support_requests` row is
inserted with the trimmed message and status pending. -/
def handleRequestSupport (userProfile : Option ProfileRow) (supportMessage : String)
    (selectedHelper : Option ProfileRow) (db : DB) : DB × Notice :=
  match userProfile, selectedHelper with
  | some p, some h =>
    if jsTrim supportMessage = "" then (db, Notice.err "Please enter a message")
    else
      ({ db with
          requests := db.requests ++
            [⟨db.nextId, p.id, h.id, p.name, jsTrim supportMessage, ReqStatus.pending, db.now⟩],
          nextId := db.nextId + 1 },
        Notice.ok ("Support request sent to " ++ h.name ++ "!"))
  | _, _ => (db, Notice.err "Please enter a message")

/-- `toggleAvailability` of HelperDashboard.tsx: flips the locally held
`isAvailable` flag and writes it to the caller's own profile row (allowed for
every user by the "Users can update their own profile" policy); there is no
role check anywhere.  Returns the new local flag and the success toast. -/
def toggleAvailability (userProfile : ProfileRow) (isAvailableLocal : Bool) (db : DB) :
    DB × Bool × Notice :=
  let newStatus := !isAvailableLocal
  ({ db with
      profiles := db.profiles.map fun q =>
        if q.id = userProfile.id then { q with isAvailable := newStatus } else q },
    newStatus,
    Notice.ok (if newStatus then "You are now available to help" else "You are now offline"))

/-! ### Messaging (ChatWindow of src/unnamed/part_006) -/

/-- The `order('created_at', { ascending: true })` ordering of `messages`,
with ties kept in insertion order (the spec's tie rule; rows are stored in
insertion order and sorted stably). -/
def msgLe (m1 m2 : MessageRow) : Prop := m1.createdAt ≤ m2.createdAt

instance : DecidableRel msgLe := fun m1 m2 => Nat.decLe m1.createdAt m2.createdAt

instance : IsTotal MessageRow msgLe := ⟨fun a b => Nat.le_total a.createdAt b.createdAt⟩

instance : IsTrans MessageRow msgLe := ⟨fun _ _ _ h1 h2 => Nat.le_trans h1 h2⟩

/-- `fetchMessages` of part_006: select the chat's messages ordered by
creation time ascending. -/
def fetchMessages (db : DB) (chatId : Nat) : List MessageRow :=
  List.insertionSort msgLe (db.messages.filter fun m => m.chatId == chatId)

/-- What `sendMessage` leaves behind: the store, the chat input field's text
(the `newMessage` state), the toast if any, and how many times the message
insert was attempted. -/
structure SendOutcome where
  db : DB
  inputBox : String
  toast : Option Notice
  insertCalls : Nat
deriving DecidableEq

/-- `sendMessage` of part_006 (ChatWindow).  The guard returns silently when
the trimmed input is empty or there is no profile.  Otherwise the input field
is cleared, the trimmed text is inserted as a message (`created_at` = now),
and on success the chat's last-message snapshot is updated.  If either write
fails (`insertOk` / `updateOk` false), the catch shows the retry toast and
restores the input field to the message text; no second attempt is made. -/
def sendMessage (userProfile : Option ProfileRow) (chatId : Nat) (newMessage : String)
    (insertOk updateOk : Bool) (db : DB) : SendOutcome :=
  match userProfile with
  | none => ⟨db, newMessage, none, 0⟩
  | some p =>
    if jsTrim newMessage = "" then ⟨db, newMessage, none, 0⟩
    else
      let messageText := jsTrim newMessage
      if insertOk then
        let db1 := { db with
          messages := db.messages ++ [⟨db.nextId, chatId, messageText, p.id, p.name, db.now⟩],
          nextId := db.nextId + 1 }
        if updateOk then
          ⟨{ db1 with
              chats := db1.chats.map fun c =>
                if c.id = chatId then
                  { c with lastMessage := messageText, lastMessageTime := db.now }
                else c },
            "", none, 1⟩
        else ⟨db1, messageText, some (Notice.err "Failed to send message. Please try again."), 1⟩
      else ⟨db, messageText, some (Notice.err "Failed to send message. Please try again."), 1⟩

/-! ### Stable-sort lemmas for the round-trip claim -/

/-- Inserting `x` into `s ++ [m]` keeps `m` last when `x` may sort before
`m`. -/
theorem orderedInsert_append_last {α : Type} (r : α → α → Prop) [DecidableRel r]
    (x m : α) (s : List α) (hxm : r x m) :
    List.orderedInsert r x (s ++ [m]) = List.orderedInsert r x s ++ [m] := by
  induction s with
  | nil => simp [List.orderedInsert, hxm]
  | cons b bs ih =>
    simp only [List.cons_append, List.orderedInsert]
    by_cases h : r x b
    · simp [h]
    · simp [h, ih]

/-- Sorting `l ++ [m]` keeps `m` last when every element of `l` may sort
before `m` (stability: the newest element stays behind its ties). -/
theorem insertionSort_append_last {α : Type} (r : α → α → Prop) [DecidableRel r]
    (l : List α) (m : α) (h : ∀ x ∈ l, r x m) :
    List.insertionSort r (l ++ [m]) = List.insertionSort r l ++ [m] := by
  induction l with
  | nil => simp [List.insertionSort]
  | cons x xs ih =>
    simp only [List.cons_append, List.insertionSort, List.append_eq]
    rw [ih fun y hy => h y (List.mem_cons_of_mem _ hy),
      orderedInsert_append_last r x m _ (h x (List.mem_cons_self _ _))]

/-- C5: a successful `sendMessage` followed immediately by `fetchMessages`
yields the previous history with the new message appended: the sequence is
sorted ascending by creation time, its last entry carries the sent (trimmed)
text and the sender's id, and its timestamp is ≥ every prior message's
timestamp in that chat (the clock hypothesis says the store's time has not
run behind any already-stored message of the chat). -/
theorem C5_send_history_round_trip (p : ProfileRow) (chatId : Nat) (text : String) (db : DB)
    (hne : jsTrim text ≠ "")
    (hclock : ∀ m ∈ db.messages, m.chatId = chatId → m.createdAt ≤ db.now) :
    fetchMessages (sendMessage (some p) chatId text true true db).db chatId
        = fetchMessages db chatId
            ++ [⟨db.nextId, chatId, jsTrim text, p.id, p.name, db.now⟩] ∧
    List.Sorted msgLe (fetchMessages (sendMessage (some p) chatId text true true db).db chatId) ∧
    (fetchMessages (sendMessage (some p) chatId text true true db).db chatId).getLast?
        = some ⟨db.nextId, chatId, jsTrim text, p.id, p.name, db.now⟩ ∧
    ∀ m ∈ fetchMessages db chatId, m.createdAt ≤ db.now := by
  have hdb : (sendMessage (some p) chatId text true true db).db.messages
      = db.messages ++ [⟨db.nextId, chatId, jsTrim text, p.id, p.name, db.now⟩] := by
    simp [sendMessage, hne]
  have hfilter : ((sendMessage (some p) chatId text true true db).db.messages.filter
        fun m => m.chatId == chatId)
      = (db.messages.filter fun m => m.chatId == chatId)
          ++ [⟨db.nextId, chatId, jsTrim text, p.id, p.name, db.now⟩] := by
    rw [hdb, List.filter_append]
    simp
  have hmax : ∀ x ∈ (db.messages.filter fun m => m.chatId == chatId),
      msgLe x ⟨db.nextId, chatId, jsTrim text, p.id, p.name, db.now⟩ := by
    intro x hx
    rw [List.mem_filter] at hx
    exact hclock x hx.1 (by simpa using hx.2)
  have hmain : fetchMessages (sendMessage (some p) chatId text true true db).db chatId
      = fetchMessages db chatId
          ++ [⟨db.nextId, chatId, jsTrim text, p.id, p.name, db.now⟩] := by
    unfold fetchMessages
    rw [hfilter, insertionSort_append_last msgLe _ _ hmax]
  refine ⟨hmain, ?_, ?_, ?_⟩
  · exact List.sorted_insertionSort msgLe _
  · rw [hmain]
    exact List.getLast?_concat _
  · intro m hm
    have hmem : m ∈ db.messages.filter fun x => x.chatId == chatId :=
      (List.perm_insertionSort msgLe _).mem_iff.mp hm
    rw [List.mem_filter] at hmem
    exact hclock m hmem.1 (by simpa using hmem.2)

/-- A profile used in the concrete messaging examples. -/
def helperHelen : ProfileRow := ⟨"H1", "Helen", "helper", true⟩

/-- A store with one prior message in chat 7, clock at 5. -/
def dbMsg : DB := ⟨[], [⟨7, ["H1", "S1"], ["Helen", "Sam"], "", 1⟩],
  [⟨1, 7, "prior", "S1", "Sam", 1⟩], [], 2, 5⟩

/-- Witness for C5 at a concrete input: sending " hi " into chat 7 of
`dbMsg`. -/
theorem C5_send_history_round_trip_witness :
    fetchMessages (sendMessage (some helperHelen) 7 " hi " true true dbMsg).db 7
        = fetchMessages dbMsg 7
            ++ [⟨dbMsg.nextId, 7, jsTrim " hi ", helperHelen.id, helperHelen.name, dbMsg.now⟩] ∧
    List.Sorted msgLe (fetchMessages (sendMessage (some helperHelen) 7 " hi " true true dbMsg).db 7) ∧
    (fetchMessages (sendMessage (some helperHelen) 7 " hi " true true dbMsg).db 7).getLast?
        = some ⟨dbMsg.nextId, 7, jsTrim " hi ", helperHelen.id, helperHelen.name, dbMsg.now⟩ ∧
    ∀ m ∈ fetchMessages dbMsg 7, m.createdAt ≤ dbMsg.now :=
  C5_send_history_round_trip helperHelen 7 " hi " dbMsg (by decide) (by decide)

/-- C6: whenever a send fails — the message insert fails, or the snapshot
update after it fails — the input field holds the attempted message text
again (available for retry), the caller sees the recoverable
"Failed to send message. Please try again." toast, the insert was attempted
exactly once (no automatic retry), and a failed insert leaves the store
unchanged. -/
theorem C6_failed_send_preserves_input (p : ProfileRow) (chatId : Nat) (input : String)
    (insertOk updateOk : Bool) (db : DB)
    (hne : jsTrim input ≠ "") (hfail : insertOk = false ∨ updateOk = false) :
    (sendMessage (some p) chatId input insertOk updateOk db).inputBox = jsTrim input ∧
    (sendMessage (some p) chatId input insertOk updateOk db).toast
        = some (Notice.err "Failed to send message. Please try again.") ∧
    (sendMessage (some p) chatId input insertOk updateOk db).insertCalls = 1 ∧
    (insertOk = false → (sendMessage (some p) chatId input insertOk updateOk db).db = db) := by
  cases insertOk with
  | false => simp [sendMessage, hne]
  | true =>
    rcases hfail with h | h
    · exact absurd h (by simp)
    · subst h
      simp [sendMessage, hne]

/-- Witness for C6 at a concrete input: the insert for " hi " into chat 7 of
`dbMsg` fails. -/
theorem C6_failed_send_preserves_input_witness :
    (sendMessage (some helperHelen) 7 " hi " false true dbMsg).inputBox = jsTrim " hi " ∧
    (sendMessage (some helperHelen) 7 " hi " false true dbMsg).toast
        = some (Notice.err "Failed to send message. Please try again.") ∧
    (sendMessage (some helperHelen) 7 " hi " false true dbMsg).insertCalls = 1 ∧
    (false = false → (sendMessage (some helperHelen) 7 " hi " false true dbMsg).db = dbMsg) :=
  C6_failed_send_preserves_input helperHelen 7 " hi " false true dbMsg (by decide) (Or.inl rfl)

/-- C4: `handleRequestSupport` with an empty-after-trim message fails with
the validation toast and leaves the store untouched (no SupportRequest row);
with a non-empty message it appends exactly one new request row, with the
trimmed message and status pending, and reports success. -/
theorem C4_requestSupport_empty_vs_nonempty (p hlp : ProfileRow) (msg : String) (db : DB) :
    (jsTrim msg = "" →
      handleRequestSupport (some p) msg (some hlp) db
        = (db, Notice.err "Please enter a message")) ∧
    (jsTrim msg ≠ "" →
      (handleRequestSupport (some p) msg (some hlp) db).1.requests
          = db.requests
              ++ [⟨db.nextId, p.id, hlp.id, p.name, jsTrim msg, ReqStatus.pending, db.now⟩] ∧
      (handleRequestSupport (some p) msg (some hlp) db).1.chats = db.chats ∧
      (handleRequestSupport (some p) msg (some hlp) db).2
          = Notice.ok ("Support request sent to " ++ hlp.name ++ "!")) := by
  constructor
  · intro he
    simp [handleRequestSupport, he]
  · intro hn
    refine ⟨?_, ?_, ?_⟩ <;> simp [handleRequestSupport, hn]

/-! ### Matching-engine claims -/

/-- The chat get-or-create write phase never touches `support_requests`. -/
theorem chatWrite_requests (db : DB) (found : List ChatRow) (u1 u2 n1 n2 lm : String) :
    (chatWrite db found u1 u2 n1 n2 lm).1.requests = db.requests := by
  cases found <;> rfl

/-- After the write phase applied to this store's own read result, some chat
for the pair is in the store (the first found one, or the fresh insert). -/
theorem getOrCreate_pair_mem (db : DB) (u1 u2 n1 n2 lm : String) :
    ∃ c ∈ (chatWrite db (findChats db u1 u2) u1 u2 n1 n2 lm).1.chats,
      chatMatches u1 u2 c = true := by
  cases hf : findChats db u1 u2 with
  | nil =>
    refine ⟨⟨db.nextId, [u1, u2], [n1, n2], lm, db.now⟩, ?_, ?_⟩
    · simp [chatWrite, hf]
    · simp [chatMatches]
  | cons c cs =>
    have hc : c ∈ findChats db u1 u2 := by
      rw [hf]; exact List.mem_cons_self _ _
    have hmatch : chatMatches u1 u2 c = true := List.of_mem_filter hc
    have hmem : c ∈ db.chats := List.mem_of_mem_filter hc
    exact ⟨c, by simp [chatWrite, hf, hmem], hmatch⟩

/-- A store with no chats at all, clock at 9, fresh ids from 100. -/
def dbC1 : DB := ⟨[], [], [], [], 100, 9⟩

/-- C1: the read-then-write get-or-create duplicates chats under
concurrency.  Two calls for the pair {A, B} both run their read (the awaited
`select`) against the initial store before either write: each read finds
nothing, so each write inserts, leaving TWO chats whose participants contain
both A and B, and the two calls resolve to different chat ids — the code
evaluated at the failing interleaving, against the claim's "never two". -/
theorem C1_interleaved_get_or_create_duplicates :
    (let read1 := findChats dbC1 "A" "B"
     let read2 := findChats dbC1 "A" "B"
     let write1 := chatWrite dbC1 read1 "A" "B" "Ann" "Bob"
       "Ann accepted your support request"
     let write2 := chatWrite write1.1 read2 "A" "B" "Ann" "Bob"
       "Ann started a conversation"
     ((write2.1.chats.filter (chatMatches "A" "B")).length = 2 ∧
       write1.2 ≠ write2.2)) := by
  decide

/-- The transitions the spec allows for `SupportRequest.status`, transcribed
from the claim for comparison with the code's behaviour. -/
def specAllowedTransitions : List (ReqStatus × ReqStatus) :=
  [(ReqStatus.pending, ReqStatus.accepted), (ReqStatus.pending, ReqStatus.declined),
    (ReqStatus.accepted, ReqStatus.completed)]

/-- A pending support request from S1 to helper H1. -/
def reqC2 : RequestRow := ⟨1, "S1", "H1", "Sam", "please help", ReqStatus.pending, 0⟩

/-- The named helper of `reqC2`. -/
def helperH : ProfileRow := ⟨"H1", "Helen", "helper", true⟩

/-- A store holding only `reqC2`. -/
def dbC2 : DB := ⟨[], [], [], [reqC2], 10, 3⟩

/-- C2 counterexample: decline then accept on the same request (the helper's
stale list still shows it) moves its status pending → declined → accepted:
the declined → accepted step is a transition the claim rules out, reached by
a sequence of the two handlers, because neither update checks the current
status. -/
theorem C2_counterexample_declined_then_accepted :
    ((handleDeclineRequest helperH 1 dbC2).1.requests.map fun r => r.status)
        = [ReqStatus.declined] ∧
    ((handleAcceptRequest helperH reqC2
          (handleDeclineRequest helperH 1 dbC2).1).1.requests.map fun r => r.status)
        = [ReqStatus.accepted] ∧
    (ReqStatus.declined, ReqStatus.accepted) ∉ specAllowedTransitions := by
  decide

/-- C2 (amended): accepting sets the targeted request's status to accepted
and declining sets it to declined regardless of its current status (the
updates are filtered only by request id and the RLS helper-id check, never by
status), leaving every other request row unchanged; so pending → accepted and
pending → declined occur as claimed, but from a non-pending status the same
unguarded overwrite runs, making e.g. declined → accepted reachable. -/
theorem C2_amended_unguarded_status_updates (caller : ProfileRow) (req : RequestRow)
    (rid : Nat) (db : DB) :
    (handleAcceptRequest caller req db).1.requests
        = db.requests.map (fun r =>
            if r.id = req.id ∧ r.helperId = caller.id
            then { r with status := ReqStatus.accepted } else r) ∧
    (handleDeclineRequest caller rid db).1.requests
        = db.requests.map (fun r =>
            if r.id = rid ∧ r.helperId = caller.id
            then { r with status := ReqStatus.declined } else r) := by
  constructor
  · simp only [handleAcceptRequest]
    rw [chatWrite_requests]
    rfl
  · rfl

/-- A caller who is not the named helper of `reqC2`. -/
def callerX : ProfileRow := ⟨"X1", "Xena", "helper", true⟩

/-- C3 counterexample: a caller who is not the request's named helper calls
accept on the pending `reqC2`.  The status update silently matches zero rows
(no AuthorizationError — the handler reports success), and the chat
get-or-create still runs: a ChatSession between the caller and the seeker is
created.  Both failure guarantees of the claim are violated at this input. -/
theorem C3_counterexample_unauthorized_accept :
    callerX.id ≠ reqC2.helperId ∧
    (handleAcceptRequest callerX reqC2 dbC2).1.requests = [reqC2] ∧
    ((handleAcceptRequest callerX reqC2 dbC2).1.chats.map fun c => c.participants)
        = [["X1", "S1"]] ∧
    (handleAcceptRequest callerX reqC2 dbC2).2.2
        = Notice.ok "Request accepted! Chat started." := by
  decide

/-- C3 (amended): when no stored request row has the target id together with
the caller as named helper — the caller is not the named helper, or the
request does not exist — `handleAcceptRequest` raises no error: the status
update silently changes nothing (so no status change occurs, as the claim
says), but the handler still reports success and still performs the chat
get-or-create, so a ChatSession for {caller, seeker} exists afterwards; and
when the row does match, its status is overwritten to accepted even if it is
not pending (see the C2 theorems). -/
theorem C3_amended_accept_without_checks (caller : ProfileRow) (req : RequestRow) (db : DB)
    (hnone : ∀ r ∈ db.requests, ¬(r.id = req.id ∧ r.helperId = caller.id)) :
    (handleAcceptRequest caller req db).1.requests = db.requests ∧
    (handleAcceptRequest caller req db).2.2
        = Notice.ok "Request accepted! Chat started." ∧
    ∃ c ∈ (handleAcceptRequest caller req db).1.chats,
      chatMatches caller.id req.seekerId c = true := by
  refine ⟨?_, ?_, ?_⟩
  · simp only [handleAcceptRequest]
    rw [chatWrite_requests]
    show db.requests.map _ = db.requests
    rw [List.map_congr_left fun r hr => if_neg (hnone r hr)]
    exact List.map_id db.requests
  · rfl
  · simp only [handleAcceptRequest]
    exact getOrCreate_pair_mem _ caller.id req.seekerId caller.name req.seekerName _

/-- Witness for C3 (amended) at the concrete unauthorized input. -/
theorem C3_amended_accept_without_checks_witness :
    (handleAcceptRequest callerX reqC2 dbC2).1.requests = dbC2.requests ∧
    (handleAcceptRequest callerX reqC2 dbC2).2.2
        = Notice.ok "Request accepted! Chat started." ∧
    ∃ c ∈ (handleAcceptRequest callerX reqC2 dbC2).1.chats,
      chatMatches callerX.id reqC2.seekerId c = true :=
  C3_amended_accept_without_checks callerX reqC2 dbC2 (by decide)

/-- A seeker profile, not a helper, currently unavailable. -/
def seekerS : ProfileRow := ⟨"S2", "Sara", "seeker", false⟩

/-- A store holding only `seekerS`. -/
def dbC9 : DB := ⟨[seekerS], [], [], [], 1, 0⟩

/-- C9 counterexample: a user whose role is seeker toggles availability on.
No ValidationError occurs — the call succeeds with the availability toast and
the profile row's flag IS changed to true, against both failure guarantees of
the claim. -/
theorem C9_counterexample_seeker_sets_available :
    seekerS.role ≠ "helper" ∧
    ((toggleAvailability seekerS false dbC9).1.profiles.map fun q => q.isAvailable)
        = [true] ∧
    (toggleAvailability seekerS false dbC9).2.1 = true ∧
    (toggleAvailability seekerS false dbC9).2.2
        = Notice.ok "You are now available to help" := by
  decide

/-- C9 (amended): `toggleAvailability` performs no role check at all: for
every caller, whatever their role, it writes the flipped flag to the caller's
own profile row, leaves all other rows unchanged, and never reports an
error. -/
theorem C9_amended_toggle_has_no_role_check (p : ProfileRow) (localAvail : Bool) (db : DB) :
    (toggleAvailability p localAvail db).1.profiles
        = db.profiles.map (fun q =>
            if q.id = p.id then { q with isAvailable := !localAvail } else q) ∧
    (toggleAvailability p localAvail db).2.1 = !localAvail ∧
    ∀ msg, (toggleAvailability p localAvail db).2.2 ≠ Notice.err msg := by
  refine ⟨rfl, rfl, ?_⟩
  intro msg
  simp [toggleAvailability]
